import Mathlib

/-
Build resource storage (pkg/build/build_storage.go).

A shallow embedding of BuildRegistryStorage and its operations.

* Go values of the empty interface type are the sum type Value.
* Go (value, error) results are pairs whose second component is an Option Error.
* The two registries are interfaces; they are records of state-passing functions over an
  arbitrary registry state σ.
* Every call made to a collaborator is appended to World.trace, so that statements such as
  "the registry is never invoked" are statements about the trace.
* The glog.Infof calls only write to the process log and are left out.
-/

set_option autoImplicit false

namespace BuildStorage

/- Data model -/

/-- Request body, a Go byte slice. -/
abbrev Bytes := List Nat

/-- Go `map[string][]string`, as an association list. -/
abbrev QueryParams := List (String × List String)

/-- Go map indexing `queryParams[k]`: the stored slice, or the nil slice when `k` has no entry. -/
def index (queryParams : QueryParams) (k : String) : List String :=
  match List.lookup k queryParams with
  | some values => values
  | none => []

/-- Modelled from the spec: `buildapi.BuildStatus`, a string type declared outside src. -/
abbrev BuildStatus := String

/-- Modelled from the spec: the value `buildapi.BuildNew`, the `New` lifecycle state, declared
outside src. -/
def BuildNew : BuildStatus := "New"

/-- Modelled from the spec: the known status enumeration, declared outside src. The spec names
`New` and the terminal states complete and failed. -/
def knownStatuses : List BuildStatus := [BuildNew, "Complete", "Failed"]

/-- Modelled from the spec: the type of the `Config` field of a build, declared outside src. It
holds the five configuration fields. The Go field `Type` is written `Type_`. -/
structure Config where
  Type_ : String := ""
  SourceURI : String := ""
  ImageTag : String := ""
  BuilderImage : String := ""
  SourceRef : String := ""
deriving DecidableEq, Repr

/-- Modelled from the spec: the template returned by `GetBuildConfig`, declared outside src. It
supplies the same five configuration fields. -/
structure BuildConfig where
  Type_ : String := ""
  SourceURI : String := ""
  ImageTag : String := ""
  BuilderImage : String := ""
  SourceRef : String := ""
deriving DecidableEq, Repr

/-- Modelled from the spec: `buildapi.Build`, declared outside src. The fields are those of the
data model of the spec, which are also all the fields the source file reads or writes. The
default values are the Go zero value `buildapi.Build{}`. -/
structure Build where
  ID : String := ""
  CreationTimestamp : String := ""
  Status : BuildStatus := ""
  Config : Config := {}
deriving DecidableEq, Repr

/-- Modelled from the spec: `buildapi.BuildList`, declared outside src. -/
structure BuildList where
  Items : List Build := []
deriving DecidableEq, Repr

/-- Modelled from the spec: `api.Status`, declared outside src; only its `Status` field is set
by the source file. -/
structure Status where
  Status : String := ""
deriving DecidableEq, Repr

/-- Modelled from the spec: the value `api.StatusSuccess`, the generic success status. -/
def StatusSuccess : String := "success"

/-- Modelled from the spec: `labels.Selector`, declared outside src. -/
structure Selector where
  Matches : List (String × String) → Bool

/-- Dynamic Go values that travel under the empty interface type. `buildPtr` is a
`*buildapi.Build`, which the type assertion `obj.(buildapi.Build)` rejects like any other
non-Build value. -/
inductive Value where
  | nil
  | build (b : Build)
  | buildPtr (b : Build)
  | buildList (l : BuildList)
  | status (s : Status)
  | str (s : String)
deriving DecidableEq, Repr

/-- Go `error` values: `errorf` is the result of `fmt.Errorf(format, arg)`, `failure` is a
failure produced by a collaborator. -/
inductive Error where
  | errorf (format : String) (arg : Value)
  | failure (msg : String)
deriving DecidableEq, Repr

/-- One entry of the trace: a call made by the storage to a collaborator. -/
inductive Call where
  | ListBuilds
  | CreateBuild (b : Build)
  | UpdateBuild (b : Build)
  | DeleteBuild (id : String)
  | GetBuildConfig (id : String)
  | DecodeInto (body : Bytes)
  | NewUUID
  | Now
deriving DecidableEq, Repr

/-- The state the operations run in: the state of the collaborators and the calls made so far,
oldest first. -/
structure World (σ : Type) where
  st : σ
  trace : List Call
deriving DecidableEq, Repr

/-- Record a call. -/
def World.log {σ : Type} (w : World σ) (c : Call) : World σ :=
  { w with trace := w.trace ++ [c] }

/-- The `BuildRegistry` interface: `ListBuilds() (BuildList, error)`, `CreateBuild(Build) error`,
`UpdateBuild(Build) error`, `DeleteBuild(string) error`. -/
structure BuildRegistry (σ : Type) where
  ListBuilds : σ → (BuildList × Option Error) × σ
  CreateBuild : Build → σ → Option Error × σ
  UpdateBuild : Build → σ → Option Error × σ
  DeleteBuild : String → σ → Option Error × σ

/-- The `buildconfig.BuildConfigRegistry` interface: `GetBuildConfig(string) (BuildConfig, error)`. -/
structure BuildConfigRegistry (σ : Type) where
  GetBuildConfig : String → σ → (BuildConfig × Option Error) × σ

/-- Package level functions the source file calls: `api.DecodeInto(body, &obj)`, which returns
the object it wrote into together with its error, `uuid.NewUUID().String()` and
`time.Now().Format(time.UnixDate)`. -/
structure Env (σ : Type) where
  DecodeInto : Bytes → Build → Build × Option Error
  NewUUID : σ → String × σ
  Now : σ → String × σ

/-- The struct `BuildRegistryStorage`. -/
structure BuildRegistryStorage (σ : Type) where
  registry : BuildRegistry σ
  buildConfigRegistry : BuildConfigRegistry σ

/-- The constructor `NewBuildRegistryStorage`. -/
def NewBuildRegistryStorage {σ : Type} (registry : BuildRegistry σ)
    (buildConfigRegistry : BuildConfigRegistry σ) : BuildRegistryStorage σ :=
  { registry := registry, buildConfigRegistry := buildConfigRegistry }

/-- The type of the function given to `MakeAsync`: no argument, a value and an error. -/
abbrev WorkFunc (σ : Type) := World σ → (Value × Option Error) × World σ

/-- Modelled from the spec: the async handle returned by `apiserver.MakeAsync`, declared outside
src. The spec describes it as a future resolved exactly once with either a success value or a
failure; the handle keeps the deferred body, and the channel and the goroutine are not
modelled. -/
structure Async (σ : Type) where
  fn : WorkFunc σ

/-- Modelled from the spec: `apiserver.MakeAsync`, which returns at once and defers `fn`. -/
def MakeAsync {σ : Type} (fn : WorkFunc σ) : Async σ := { fn := fn }

/-- Modelled from the spec: resolving a handle runs its body once, in the world `w` in which the
deferred task is scheduled. -/
def Async.resolve {σ : Type} (h : Async σ) (w : World σ) : (Value × Option Error) × World σ :=
  h.fn w

/- Operations -/

/-- The loop of `List`, lines 51 to 53: `result.Items = append(result.Items, build)`. -/
def appendItems (result : BuildList) (items : List Build) : BuildList :=
  items.foldl (fun acc build => { acc with Items := acc.Items ++ [build] }) result

/-- `BuildRegistryStorage.List`, lines 47 to 56. -/
def BuildRegistryStorage.List {σ : Type} (storage : BuildRegistryStorage σ)
    (_selector : Selector) (w : World σ) : (Value × Option Error) × World σ :=
  let result : BuildList := {}
  let r := storage.registry.ListBuilds w.st
  let w1 : World σ := { st := r.2, trace := w.trace ++ [Call.ListBuilds] }
  match r.1.2 with
  | none => ((Value.buildList (appendItems result r.1.1.Items), none), w1)
  | some err => ((Value.buildList result, some err), w1)

/-- The function deferred by `Delete`, lines 69 to 71. -/
def deleteWork {σ : Type} (storage : BuildRegistryStorage σ) (id : String) : WorkFunc σ :=
  fun w =>
    let r := storage.registry.DeleteBuild id w.st
    ((Value.status { Status := StatusSuccess }, r.1),
      { st := r.2, trace := w.trace ++ [Call.DeleteBuild id] })

/-- `BuildRegistryStorage.Delete`, lines 68 to 72. -/
def BuildRegistryStorage.Delete {σ : Type} (storage : BuildRegistryStorage σ)
    (id : String) (w : World σ) : (Option (Async σ) × Option Error) × World σ :=
  ((some (MakeAsync (deleteWork storage id)), none), w)

/-- Lines 89 to 105 of `Extract`: the `build_config_id` step and the final return. The match
on `values` is the test `len(values) > 0` together with the read of `values[0]`. -/
def extractConfig {σ : Type} (storage : BuildRegistryStorage σ)
    (queryParams : QueryParams) (result : Build) (w : World σ) :
    (Value × Option Error) × World σ :=
  let values := index queryParams "build_config_id"
  match values with
  | buildConfigID :: _ =>
    let r := storage.buildConfigRegistry.GetBuildConfig buildConfigID w.st
    let w1 : World σ := { st := r.2, trace := w.trace ++ [Call.GetBuildConfig buildConfigID] }
    let buildConfig := r.1.1
    match r.1.2 with
    | some err => ((Value.nil, some err), w1)
    | none =>
      let result := { result with Config := { result.Config with Type_ := buildConfig.Type_ } }
      let result := { result with Config := { result.Config with SourceURI := buildConfig.SourceURI } }
      let result := { result with Config := { result.Config with ImageTag := buildConfig.ImageTag } }
      let result := { result with Config := { result.Config with BuilderImage := buildConfig.BuilderImage } }
      let result := { result with Config := { result.Config with SourceRef := buildConfig.SourceRef } }
      ((Value.build result, none), w1)
  | [] => ((Value.build result, none), w)

/-- `BuildRegistryStorage.Extract`, lines 75 to 106. -/
def BuildRegistryStorage.Extract {σ : Type} (storage : BuildRegistryStorage σ) (env : Env σ)
    (body : Bytes) (queryParams : QueryParams) (w : World σ) :
    (Value × Option Error) × World σ :=
  let result : Build := {}
  let values := index queryParams "plugin"
  if values.length > 0 then
    extractConfig storage queryParams result w
  else
    let d := env.DecodeInto body result
    let w1 := w.log (Call.DecodeInto body)
    match d.2 with
    | some err => ((Value.nil, some err), w1)
    | none => extractConfig storage queryParams d.1 w1

/-- The function deferred by `Create`, lines 125 to 131. -/
def createWork {σ : Type} (storage : BuildRegistryStorage σ) (build : Build) : WorkFunc σ :=
  fun w =>
    let r := storage.registry.CreateBuild build w.st
    let w1 : World σ := { st := r.2, trace := w.trace ++ [Call.CreateBuild build] }
    match r.1 with
    | some err => ((Value.nil, some err), w1)
    | none => ((Value.build build, none), w1)

/-- Lines 114 to 123 of `Create`: the three defaulting steps, in order, on the local copy
`build`. The generator and the clock are called only inside their branch. -/
def createDefaults {σ : Type} (env : Env σ) (build : Build) (w : World σ) : Build × World σ :=
  let s1 : Build × World σ :=
    if build.ID.utf8ByteSize = 0 then
      let u := env.NewUUID w.st
      ({ build with ID := u.1 }, { st := u.2, trace := w.trace ++ [Call.NewUUID] })
    else (build, w)
  let s2 : Build × World σ :=
    if s1.1.Status.utf8ByteSize = 0 then ({ s1.1 with Status := BuildNew }, s1.2) else s1
  if s2.1.CreationTimestamp = "" then
    let t := env.Now s2.2.st
    ({ s2.1 with CreationTimestamp := t.1 }, { st := t.2, trace := s2.2.trace ++ [Call.Now] })
  else s2

/-- `BuildRegistryStorage.Create`, lines 109 to 132. -/
def BuildRegistryStorage.Create {σ : Type} (storage : BuildRegistryStorage σ) (env : Env σ)
    (obj : Value) (w : World σ) : (Option (Async σ) × Option Error) × World σ :=
  match obj with
  | Value.build build =>
    let s := createDefaults env build w
    ((some (MakeAsync (createWork storage s.1)), none), s.2)
  | _ => ((none, some (Error.errorf "not a build: %#v" obj)), w)

/-- The function deferred by `Update`, lines 143 to 149. -/
def updateWork {σ : Type} (storage : BuildRegistryStorage σ) (build : Build) : WorkFunc σ :=
  fun w =>
    let r := storage.registry.UpdateBuild build w.st
    let w1 : World σ := { st := r.2, trace := w.trace ++ [Call.UpdateBuild build] }
    match r.1 with
    | some err => ((Value.nil, some err), w1)
    | none => ((Value.build build, none), w1)

/-- `BuildRegistryStorage.Update`, lines 135 to 150. -/
def BuildRegistryStorage.Update {σ : Type} (storage : BuildRegistryStorage σ)
    (obj : Value) (w : World σ) : (Option (Async σ) × Option Error) × World σ :=
  match obj with
  | Value.build build =>
    if build.ID.utf8ByteSize = 0 then
      ((none, some (Error.errorf "ID should not be empty: %#v" (Value.build build))), w)
    else
      ((some (MakeAsync (updateWork storage build)), none), w)
  | _ => ((none, some (Error.errorf "not a build: %#v" obj)), w)

/- Fixtures: small concrete collaborators on which the operations are evaluated. -/

/-- An in-memory build registry; its state is the stored builds, in insertion order. -/
def memRegistry : BuildRegistry (List Build) where
  ListBuilds := fun s => (({ Items := s }, none), s)
  CreateBuild := fun b s => (none, s ++ [b])
  UpdateBuild := fun b s =>
    if s.any (fun x => x.ID == b.ID) then (none, s.map (fun x => if x.ID == b.ID then b else x))
    else (some (Error.failure "build not found"), s)
  DeleteBuild := fun id s => (none, s.filter (fun x => x.ID != id))

/-- A build registry every method of which fails. -/
def downRegistry : BuildRegistry (List Build) where
  ListBuilds := fun s => (({ Items := s }, some (Error.failure "registry unavailable")), s)
  CreateBuild := fun _ s => (some (Error.failure "registry unavailable"), s)
  UpdateBuild := fun _ s => (some (Error.failure "registry unavailable"), s)
  DeleteBuild := fun _ s => (some (Error.failure "registry unavailable"), s)

/-- The template of the scenario of the spec. -/
def tpl1 : BuildConfig :=
  { Type_ := "docker", SourceURI := "https://y", ImageTag := "latest", BuilderImage := "b1",
    SourceRef := "main" }

/-- A template registry that knows the single template tpl1. -/
def tplRegistry : BuildConfigRegistry (List Build) where
  GetBuildConfig := fun id s =>
    if id = "tpl1" then ((tpl1, none), s)
    else (({}, some (Error.failure "build config not found")), s)

/-- The build every non-empty body decodes to under demoEnv. -/
def dockerBuild : Build :=
  { Config := { Type_ := "docker", SourceURI := "https://x" } }

/-- A toy environment: the empty body does not decode, every other body decodes to dockerBuild;
the generator and the clock return fixed non-empty strings. -/
def demoEnv : Env (List Build) where
  DecodeInto := fun body obj =>
    match body with
    | [] => (obj, some (Error.failure "unexpected end of input"))
    | _ :: _ => ({ obj with Config := { Type_ := "docker", SourceURI := "https://x" } }, none)
  NewUUID := fun s => ("uuid-1", s)
  Now := fun s => ("Tue Nov  4 12:00:00 UTC 2014", s)

/-- The storage over the in-memory registry. -/
def demoStorage : BuildRegistryStorage (List Build) :=
  NewBuildRegistryStorage memRegistry tplRegistry

/-- The storage over the failing registry. -/
def downStorage : BuildRegistryStorage (List Build) :=
  NewBuildRegistryStorage downRegistry tplRegistry

/-- A stored build. -/
def build1 : Build :=
  { ID := "b1", CreationTimestamp := "Mon Nov  3 09:00:00 UTC 2014", Status := "Complete" }

/-- A world with one stored build and no call made yet. -/
def demoWorld : World (List Build) := { st := [build1], trace := [] }

/-- A selector that matches everything. -/
def selAll : Selector := { Matches := fun _ => true }

/-- A selector that matches nothing. -/
def selNone : Selector := { Matches := fun _ => false }

/-- Query parameters that name a plugin and nothing else. -/
def pluginParams : QueryParams := [("plugin", ["custom"])]

/-- Query parameters that name the template tpl1 and nothing else. -/
def tplParams : QueryParams := [("build_config_id", ["tpl1", "tpl2"])]

/-- Query parameters that name a template the registry does not know. -/
def missingTplParams : QueryParams := [("build_config_id", ["nope"])]

/-- A build with neither id, status nor creation timestamp, as in the Create scenario. -/
def freshBuild : Build := { Config := { Type_ := "docker", SourceURI := "https://x" } }

/-- The build the Create scenario stores under demoEnv. -/
def createdBuild : Build :=
  { ID := "uuid-1", CreationTimestamp := "Tue Nov  4 12:00:00 UTC 2014", Status := "New",
    Config := { Type_ := "docker", SourceURI := "https://x" } }

/-- A build whose status is a non-empty string outside the status enumeration. -/
def oddBuild : Build := { ID := "b2", Status := "bogus" }

/-- The defaults of `Create` as the spec words them: each of id, status and creation timestamp
is replaced exactly when it is empty, by the generated identifier, by `New` and by the formatted
current time; the config is kept. -/
def withDefaults (b : Build) (freshID now : String) : Build :=
  { ID := if b.ID = "" then freshID else b.ID,
    CreationTimestamp := if b.CreationTimestamp = "" then now else b.CreationTimestamp,
    Status := if b.Status = "" then BuildNew else b.Status,
    Config := b.Config }

/-- The identifier the generator yields when `Create` runs in the state `st`. -/
def freshID {σ : Type} (env : Env σ) (st : σ) : String := (env.NewUUID st).1

/-- The formatted time the clock yields when `Create` runs on b in the state `st`: the clock is
read after the generator, which has run only if the id of b is empty. -/
def currentTime {σ : Type} (env : Env σ) (b : Build) (st : σ) : String :=
  (env.Now (if b.ID = "" then (env.NewUUID st).2 else st)).1

/- Helper lemmas. -/

/-- Go `len(s) == 0` holds exactly for the empty string. -/
theorem utf8ByteSize_eq_zero_iff (s : String) : s.utf8ByteSize = 0 ↔ s = "" := by
  rcases s with ⟨cs⟩
  cases cs with
  | nil => simp [String.utf8ByteSize, String.utf8ByteSize.go]
  | cons c cs =>
    have hc := Char.utf8Size_pos c
    simp only [String.utf8ByteSize, String.utf8ByteSize.go]
    constructor
    · intro h; omega
    · intro h; exact absurd (congrArg String.data h) (by simp)

/-- The append loop of `List` adds the items after those already collected, in order. -/
theorem appendItems_Items (result : BuildList) (items : List Build) :
    (appendItems result items).Items = result.Items ++ items := by
  induction items generalizing result with
  | nil => simp [appendItems]
  | cons b bs ih =>
    have h := ih { result with Items := result.Items ++ [b] }
    simp only [appendItems, List.foldl_cons] at h ⊢
    rw [h]; simp

/-- Starting from the empty result the loop copies the items of the registry. -/
theorem appendItems_empty (items : List Build) : appendItems {} items = { Items := items } := by
  have h := appendItems_Items {} items
  cases hr : appendItems {} items with
  | mk its => rw [hr] at h; simpa using h

/-- Indexing a map at a key that has an entry yields the stored slice. -/
theorem index_of_lookup_some (queryParams : QueryParams) (k : String) (values : List String)
    (h : List.lookup k queryParams = some values) : index queryParams k = values := by
  simp [index, h]

/-- Indexing a map at a key that has no entry yields the nil slice. -/
theorem index_of_lookup_none (queryParams : QueryParams) (k : String)
    (h : List.lookup k queryParams = none) : index queryParams k = [] := by
  simp [index, h]

/-- The three defaulting steps of `Create` compute the defaults as the spec words them. -/
theorem createDefaults_fst {σ : Type} (env : Env σ) (b : Build) (w : World σ) :
    (createDefaults env b w).1 = withDefaults b (freshID env w.st) (currentTime env b w.st) := by
  cases b with
  | mk bid ts status cfg =>
    by_cases h1 : bid = "" <;> by_cases h2 : status = "" <;> by_cases h3 : ts = "" <;>
      simp [createDefaults, withDefaults, freshID, currentTime, utf8ByteSize_eq_zero_iff,
        h1, h2, h3]

/-- What resolving the body deferred by `Create` does. -/
theorem createWork_resolve {σ : Type} (storage : BuildRegistryStorage σ) (d : Build)
    (w2 : World σ) :
    ((MakeAsync (createWork storage d)).resolve w2).2
        = { st := (storage.registry.CreateBuild d w2.st).2,
            trace := w2.trace ++ [Call.CreateBuild d] }
    ∧ ((storage.registry.CreateBuild d w2.st).1 = none →
        ((MakeAsync (createWork storage d)).resolve w2).1 = (Value.build d, none))
    ∧ (∀ err : Error, (storage.registry.CreateBuild d w2.st).1 = some err →
        ((MakeAsync (createWork storage d)).resolve w2).1 = (Value.nil, some err)) := by
  refine ⟨?_, ?_, ?_⟩
  · simp only [Async.resolve, MakeAsync, createWork]
    cases (storage.registry.CreateBuild d w2.st).1 <;> rfl
  · intro hok
    simp [Async.resolve, MakeAsync, createWork, hok]
  · intro err herr
    simp [Async.resolve, MakeAsync, createWork, herr]

/- Theorems. -/

/-- C9: for every selector, `List` applies no filtering. Its result is the same for any two
selectors; when `ListBuilds` succeeds it returns exactly the items of the registry, in the order
of the registry, with no failure; when `ListBuilds` fails it returns that failure unchanged
alongside an empty collection. -/
theorem list_no_filtering {σ : Type} (storage : BuildRegistryStorage σ)
    (selector selector' : Selector) (w : World σ) :
    storage.List selector w = storage.List selector' w
    ∧ (∀ (builds : BuildList) (st' : σ),
        storage.registry.ListBuilds w.st = ((builds, none), st') →
        (storage.List selector w).1 = (Value.buildList { Items := builds.Items }, none))
    ∧ (∀ (builds : BuildList) (err : Error) (st' : σ),
        storage.registry.ListBuilds w.st = ((builds, some err), st') →
        (storage.List selector w).1 = (Value.buildList { Items := [] }, some err)) := by
  refine ⟨rfl, ?_, ?_⟩
  · intro builds st' h
    simp [BuildRegistryStorage.List, h, appendItems_empty]
  · intro builds err st' h
    simp [BuildRegistryStorage.List, h]

/-- Witness of C9 on the in-memory registry and on the failing registry. -/
theorem list_no_filtering_witness :
    (demoStorage.List selAll demoWorld).1 = (Value.buildList { Items := [build1] }, none)
    ∧ (downStorage.List selNone demoWorld).1
        = (Value.buildList { Items := [] }, some (Error.failure "registry unavailable")) :=
  ⟨(list_no_filtering demoStorage selAll selNone demoWorld).2.1 { Items := [build1] } [build1] rfl,
   (list_no_filtering downStorage selNone selAll demoWorld).2.2 { Items := [build1] }
      (Error.failure "registry unavailable") [build1] rfl⟩

/-- C3: for every Build whose id is empty, `Update` fails synchronously: it returns no async
handle and an error, and leaves the world as it found it, so that no call is added to the trace
and `UpdateBuild` is never invoked. -/
theorem update_empty_id_fails {σ : Type} (storage : BuildRegistryStorage σ) (b : Build)
    (w : World σ) (hid : b.ID = "") :
    storage.Update (Value.build b) w
      = ((none, some (Error.errorf "ID should not be empty: %#v" (Value.build b))), w) := by
  have h0 : b.ID.utf8ByteSize = 0 := (utf8ByteSize_eq_zero_iff b.ID).2 hid
  simp [BuildRegistryStorage.Update, h0]

/-- Witness of C3: the scenario `Update(Build{id:""})` of the spec. -/
theorem update_empty_id_fails_witness :
    ({ Status := "Complete" } : Build).ID = ""
    ∧ demoStorage.Update (Value.build { Status := "Complete" }) demoWorld
      = ((none, some (Error.errorf "ID should not be empty: %#v"
            (Value.build { Status := "Complete" }))), demoWorld) :=
  ⟨rfl, update_empty_id_fails demoStorage { Status := "Complete" } demoWorld rfl⟩

/-- C8: for every Build b with non-empty id, `Update` returns an async handle and no synchronous
failure, without touching the world. Resolved in any world, the body makes exactly one call,
`UpdateBuild` with exactly b, and moves the registry to the state that call yields; it resolves
to b itself when the registry succeeds and to the failure of the registry with no Build value
when it fails. -/
theorem update_nonempty_id {σ : Type} (storage : BuildRegistryStorage σ) (b : Build)
    (w : World σ) (hid : b.ID ≠ "") :
    ∃ h : Async σ, storage.Update (Value.build b) w = ((some h, none), w)
      ∧ ∀ w2 : World σ,
          (h.resolve w2).2 = { st := (storage.registry.UpdateBuild b w2.st).2,
                               trace := w2.trace ++ [Call.UpdateBuild b] }
          ∧ ((storage.registry.UpdateBuild b w2.st).1 = none →
              (h.resolve w2).1 = (Value.build b, none))
          ∧ (∀ err : Error, (storage.registry.UpdateBuild b w2.st).1 = some err →
              (h.resolve w2).1 = (Value.nil, some err)) := by
  have h0 : ¬ b.ID.utf8ByteSize = 0 := fun h => hid ((utf8ByteSize_eq_zero_iff b.ID).1 h)
  refine ⟨MakeAsync (updateWork storage b), ?_, ?_⟩
  · simp [BuildRegistryStorage.Update, h0]
  · intro w2
    refine ⟨?_, ?_, ?_⟩
    · simp only [Async.resolve, MakeAsync, updateWork]
      cases (storage.registry.UpdateBuild b w2.st).1 <;> rfl
    · intro hok
      simp [Async.resolve, MakeAsync, updateWork, hok]
    · intro err herr
      simp [Async.resolve, MakeAsync, updateWork, herr]

/-- Witness of C8 on the stored build of the in-memory registry. -/
theorem update_nonempty_id_witness :
    build1.ID ≠ ""
    ∧ ∃ h : Async (List Build), demoStorage.Update (Value.build build1) demoWorld
          = ((some h, none), demoWorld)
      ∧ ∀ w2 : World (List Build),
          (h.resolve w2).2 = { st := (demoStorage.registry.UpdateBuild build1 w2.st).2,
                               trace := w2.trace ++ [Call.UpdateBuild build1] }
          ∧ ((demoStorage.registry.UpdateBuild build1 w2.st).1 = none →
              (h.resolve w2).1 = (Value.build build1, none))
          ∧ (∀ err : Error, (demoStorage.registry.UpdateBuild build1 w2.st).1 = some err →
              (h.resolve w2).1 = (Value.nil, some err)) :=
  ⟨by decide, update_nonempty_id demoStorage build1 demoWorld (by decide)⟩

/-- C6, counterexample: `Delete` takes an identifier, which is not a Build value, and yet it
returns an async handle and no synchronous failure; resolving the handle invokes `DeleteBuild`
and removes the stored build. -/
theorem delete_accepts_non_build :
    (∀ b : Build, Value.str "b1" ≠ Value.build b)
    ∧ (demoStorage.Delete "b1" demoWorld).1.2 = none
    ∧ ∃ h : Async (List Build), (demoStorage.Delete "b1" demoWorld).1.1 = some h
        ∧ (h.resolve demoWorld).2.trace = [Call.DeleteBuild "b1"]
        ∧ (h.resolve demoWorld).2.st = [] :=
  ⟨fun _ h => Value.noConfusion h, rfl, MakeAsync (deleteWork demoStorage "b1"), rfl,
    by decide, by decide⟩

/-- C6, amended: for `Create` and `Update`, every input that is not a Build value yields a
synchronous failure, with no async handle, and leaves the world as it found it, so that no
method of the registry is invoked. `Delete` takes an identifier string and checks nothing: it
always returns an async handle and no synchronous failure, without touching the world; its body
makes the single call `DeleteBuild(id)` and resolves to the success status together with the
error of that call. -/
theorem create_update_reject_non_build {σ : Type} (storage : BuildRegistryStorage σ)
    (env : Env σ) (obj : Value) (id : String) (w : World σ)
    (hobj : ∀ b : Build, obj ≠ Value.build b) :
    storage.Create env obj w = ((none, some (Error.errorf "not a build: %#v" obj)), w)
    ∧ storage.Update obj w = ((none, some (Error.errorf "not a build: %#v" obj)), w)
    ∧ ∃ h : Async σ, storage.Delete id w = ((some h, none), w)
        ∧ ∀ w2 : World σ, h.resolve w2
            = ((Value.status { Status := StatusSuccess },
                (storage.registry.DeleteBuild id w2.st).1),
               { st := (storage.registry.DeleteBuild id w2.st).2,
                 trace := w2.trace ++ [Call.DeleteBuild id] }) := by
  refine ⟨?_, ?_, MakeAsync (deleteWork storage id), rfl, fun _ => rfl⟩
  · cases obj with
    | build b => exact absurd rfl (hobj b)
    | _ => rfl
  · cases obj with
    | build b => exact absurd rfl (hobj b)
    | _ => rfl

/-- Witness of amended C6: a pointer to a Build is not a Build value. -/
theorem create_update_reject_non_build_witness :
    (∀ b : Build, Value.buildPtr build1 ≠ Value.build b)
    ∧ demoStorage.Create demoEnv (Value.buildPtr build1) demoWorld
        = ((none, some (Error.errorf "not a build: %#v" (Value.buildPtr build1))), demoWorld)
    ∧ demoStorage.Update (Value.buildPtr build1) demoWorld
        = ((none, some (Error.errorf "not a build: %#v" (Value.buildPtr build1))), demoWorld)
    ∧ ∃ h : Async (List Build), demoStorage.Delete "b1" demoWorld = ((some h, none), demoWorld)
        ∧ ∀ w2 : World (List Build), h.resolve w2
            = ((Value.status { Status := StatusSuccess },
                (demoStorage.registry.DeleteBuild "b1" w2.st).1),
               { st := (demoStorage.registry.DeleteBuild "b1" w2.st).2,
                 trace := w2.trace ++ [Call.DeleteBuild "b1"] }) :=
  ⟨fun _ h => Value.noConfusion h,
   create_update_reject_non_build demoStorage demoEnv (Value.buildPtr build1) "b1" demoWorld
     (fun _ h => Value.noConfusion h)⟩

/-- C1: for every payload that decodes successfully and every query-parameter map whose
`build_config_id` entry has a first value that the template registry resolves to a template t,
`Extract` returns, with no failure, a Build whose five config fields equal the five fields of t,
whatever the payload supplied for them. -/
theorem extract_template_wins {σ : Type} (storage : BuildRegistryStorage σ) (env : Env σ)
    (body : Bytes) (queryParams : QueryParams) (w : World σ) (id : String) (rest : List String)
    (decoded : Build) (t : BuildConfig) (st' : σ)
    (hdec : env.DecodeInto body {} = (decoded, none))
    (hq : List.lookup "build_config_id" queryParams = some (id :: rest))
    (hres : storage.buildConfigRegistry.GetBuildConfig id w.st = ((t, none), st')) :
    ∃ r : Build, (storage.Extract env body queryParams w).1 = (Value.build r, none)
      ∧ r.Config.Type_ = t.Type_ ∧ r.Config.SourceURI = t.SourceURI
      ∧ r.Config.ImageTag = t.ImageTag ∧ r.Config.BuilderImage = t.BuilderImage
      ∧ r.Config.SourceRef = t.SourceRef := by
  have hb := index_of_lookup_some queryParams "build_config_id" (id :: rest) hq
  by_cases hp : (index queryParams "plugin").length > 0
  · simp [BuildRegistryStorage.Extract, hp, extractConfig, hb, hres]
  · simp [BuildRegistryStorage.Extract, hp, extractConfig, hb, hres, hdec, World.log]

/-- Witness of C1: the template scenario of the spec, with a payload that supplies its own
config fields. -/
theorem extract_template_wins_witness :
    ∃ r : Build, (demoStorage.Extract demoEnv [1] tplParams demoWorld).1 = (Value.build r, none)
      ∧ r.Config.Type_ = tpl1.Type_ ∧ r.Config.SourceURI = tpl1.SourceURI
      ∧ r.Config.ImageTag = tpl1.ImageTag ∧ r.Config.BuilderImage = tpl1.BuilderImage
      ∧ r.Config.SourceRef = tpl1.SourceRef :=
  extract_template_wins demoStorage demoEnv [1] tplParams demoWorld "tpl1" ["tpl2"] dockerBuild
    tpl1 [build1] rfl rfl rfl

/-- C4, counterexample: the payload decodes to a Build with a docker config and the parameters
have no `build_config_id` entry, but they name a plugin; `Extract` then returns the zero Build,
whose config is not the decoded one. -/
theorem extract_plugin_drops_payload :
    demoEnv.DecodeInto [1] {} = (dockerBuild, none)
    ∧ List.lookup "build_config_id" pluginParams = none
    ∧ (demoStorage.Extract demoEnv [1] pluginParams demoWorld).1 = (Value.build {}, none)
    ∧ ({} : Build).Config ≠ dockerBuild.Config := by
  refine ⟨rfl, rfl, rfl, by decide⟩

/-- C4, amended: for every payload that decodes successfully and every query-parameter map that
has no `build_config_id` entry and no value under `plugin`, `Extract` returns, with no failure,
the decoded Build itself: its config is the decoded config verbatim and its id and status are
those decoded, nothing being defaulted. The only call made is the decoding of the payload. -/
theorem extract_payload_verbatim {σ : Type} (storage : BuildRegistryStorage σ) (env : Env σ)
    (body : Bytes) (queryParams : QueryParams) (w : World σ) (decoded : Build)
    (hplugin : index queryParams "plugin" = [])
    (hdec : env.DecodeInto body {} = (decoded, none))
    (hq : List.lookup "build_config_id" queryParams = none) :
    storage.Extract env body queryParams w
      = ((Value.build decoded, none), w.log (Call.DecodeInto body)) := by
  have hb := index_of_lookup_none queryParams "build_config_id" hq
  simp [BuildRegistryStorage.Extract, hplugin, extractConfig, hb, hdec]

/-- Witness of amended C4: the scenario of the spec with empty parameters. -/
theorem extract_payload_verbatim_witness :
    demoStorage.Extract demoEnv [1] [] demoWorld
      = ((Value.build dockerBuild, none), demoWorld.log (Call.DecodeInto [1])) :=
  extract_payload_verbatim demoStorage demoEnv [1] [] demoWorld dockerBuild rfl rfl rfl

/-- C5: for every payload and every query-parameter map without a `plugin` entry, `Extract`
returns a failure if and only if either the payload fails to decode, or it decodes and
`build_config_id` has a first value that the template registry fails to resolve. After a decode
failure the result is that failure with no Build, and the only call made is the decoding, so
the template registry is never consulted. After a resolution failure the result is that failure
with no Build. Whenever `Extract` fails, the value returned is nil. -/
theorem extract_failure_iff {σ : Type} (storage : BuildRegistryStorage σ) (env : Env σ)
    (body : Bytes) (queryParams : QueryParams) (w : World σ)
    (hplugin : List.lookup "plugin" queryParams = none) :
    ((storage.Extract env body queryParams w).1.2 ≠ none ↔
        ((env.DecodeInto body {}).2 ≠ none
          ∨ ((env.DecodeInto body {}).2 = none
              ∧ ∃ (id : String) (rest : List String),
                  List.lookup "build_config_id" queryParams = some (id :: rest)
                  ∧ (storage.buildConfigRegistry.GetBuildConfig id w.st).1.2 ≠ none)))
    ∧ (∀ err : Error, (env.DecodeInto body {}).2 = some err →
        storage.Extract env body queryParams w
          = ((Value.nil, some err), { st := w.st, trace := w.trace ++ [Call.DecodeInto body] }))
    ∧ (∀ (id : String) (rest : List String) (err : Error),
        (env.DecodeInto body {}).2 = none →
        List.lookup "build_config_id" queryParams = some (id :: rest) →
        (storage.buildConfigRegistry.GetBuildConfig id w.st).1.2 = some err →
        (storage.Extract env body queryParams w).1 = (Value.nil, some err))
    ∧ ((storage.Extract env body queryParams w).1.2 ≠ none →
        (storage.Extract env body queryParams w).1.1 = Value.nil) := by
  have hp : index queryParams "plugin" = [] := index_of_lookup_none queryParams "plugin" hplugin
  have key : ∀ (d : Build),
      ((extractConfig storage queryParams d (w.log (Call.DecodeInto body))).1.2 ≠ none ↔
        ∃ (id : String) (rest : List String),
          List.lookup "build_config_id" queryParams = some (id :: rest)
          ∧ (storage.buildConfigRegistry.GetBuildConfig id w.st).1.2 ≠ none)
      ∧ ((extractConfig storage queryParams d (w.log (Call.DecodeInto body))).1.2 ≠ none →
          (extractConfig storage queryParams d (w.log (Call.DecodeInto body))).1.1 = Value.nil)
      ∧ (∀ (id : String) (rest : List String) (err : Error),
          List.lookup "build_config_id" queryParams = some (id :: rest) →
          (storage.buildConfigRegistry.GetBuildConfig id w.st).1.2 = some err →
          (extractConfig storage queryParams d (w.log (Call.DecodeInto body))).1
            = (Value.nil, some err)) := by
    intro d
    cases hl : List.lookup "build_config_id" queryParams with
    | none => simp [extractConfig, index_of_lookup_none _ _ hl]
    | some ids =>
      have hb := index_of_lookup_some _ _ _ hl
      cases ids with
      | nil => simp [extractConfig, hb]
      | cons id rest =>
        cases hg : (storage.buildConfigRegistry.GetBuildConfig id w.st).1.2 with
        | none =>
          simp only [extractConfig, hb, World.log, hg]
          refine ⟨by simp [hg], by simp, ?_⟩
          intro id1 rest1 err heq hg1
          simp only [Option.some.injEq, List.cons.injEq] at heq
          rw [← heq.1, hg] at hg1
          exact absurd hg1 (by simp)
        | some e =>
          simp only [extractConfig, hb, World.log, hg]
          refine ⟨by simp [hg], by simp, ?_⟩
          intro id1 rest1 err heq hg1
          simp only [Option.some.injEq, List.cons.injEq] at heq
          rw [← heq.1, hg] at hg1
          simp only [Option.some.injEq] at hg1
          rw [hg1]
  cases hd : (env.DecodeInto body {}).2 with
  | some e =>
    simp [BuildRegistryStorage.Extract, hp, hd, World.log]
  | none =>
    have k := key (env.DecodeInto body {}).1
    refine ⟨?_, ?_, ?_, ?_⟩
    · simpa [BuildRegistryStorage.Extract, hp, hd] using k.1
    · intro err herr; exact absurd herr (by simp)
    · intro id rest err _ hl hg
      simpa [BuildRegistryStorage.Extract, hp, hd] using k.2.2 id rest err hl hg
    · simpa [BuildRegistryStorage.Extract, hp, hd] using k.2.1

/-- Witness of C5: an empty payload does not decode, and the template registry is not consulted
although a template is named. -/
theorem extract_failure_iff_witness :
    demoStorage.Extract demoEnv [] tplParams demoWorld
      = ((Value.nil, some (Error.failure "unexpected end of input")),
         { st := demoWorld.st, trace := demoWorld.trace ++ [Call.DecodeInto []] }) :=
  (extract_failure_iff demoStorage demoEnv [] tplParams demoWorld rfl).2.1
    (Error.failure "unexpected end of input") rfl

/-- C10: for every query-parameter map whose `plugin` entry has at least one value, `Extract`
never decodes the payload: its result is the same for every payload and every decoder, the calls
it adds to the trace contain no decoding, and when `build_config_id` is absent it returns the
zero-valued Build with no failure and makes no call at all. -/
theorem extract_plugin_skips_decode {σ : Type} (storage : BuildRegistryStorage σ)
    (env env' : Env σ) (body body' : Bytes) (queryParams : QueryParams) (w : World σ)
    (v : String) (vs : List String)
    (hplugin : List.lookup "plugin" queryParams = some (v :: vs)) :
    storage.Extract env body queryParams w = storage.Extract env' body' queryParams w
    ∧ (∃ calls : List Call,
        (storage.Extract env body queryParams w).2.trace = w.trace ++ calls
        ∧ ∀ b : Bytes, Call.DecodeInto b ∉ calls)
    ∧ (List.lookup "build_config_id" queryParams = none →
        storage.Extract env body queryParams w = ((Value.build {}, none), w)) := by
  have hp : (index queryParams "plugin").length > 0 := by
    rw [index_of_lookup_some queryParams "plugin" (v :: vs) hplugin]; simp
  have he : ∀ (e : Env σ) (bd : Bytes),
      storage.Extract e bd queryParams w = extractConfig storage queryParams {} w := by
    intro e bd
    simp only [BuildRegistryStorage.Extract]
    rw [if_pos hp]
  refine ⟨by rw [he, he], ?_, ?_⟩
  · rw [he]
    cases hl : List.lookup "build_config_id" queryParams with
    | none => exact ⟨[], by simp [extractConfig, index_of_lookup_none _ _ hl]⟩
    | some ids =>
      have hb := index_of_lookup_some _ _ _ hl
      cases ids with
      | nil => exact ⟨[], by simp [extractConfig, hb]⟩
      | cons id rest =>
        refine ⟨[Call.GetBuildConfig id], ?_, by simp⟩
        simp only [extractConfig, hb]
        cases (storage.buildConfigRegistry.GetBuildConfig id w.st).1.2 <;> rfl
  · intro hl
    rw [he]
    simp [extractConfig, index_of_lookup_none _ _ hl]

/-- Witness of C10: with a plugin named, a payload that does not decode and one that does give
the same result, the zero-valued Build. -/
theorem extract_plugin_skips_decode_witness :
    demoStorage.Extract demoEnv [] pluginParams demoWorld
      = demoStorage.Extract demoEnv [1] pluginParams demoWorld
    ∧ demoStorage.Extract demoEnv [] pluginParams demoWorld
      = ((Value.build {}, none), demoWorld) :=
  ⟨(extract_plugin_skips_decode demoStorage demoEnv demoEnv [] [1] pluginParams demoWorld
      "custom" [] rfl).1,
   (extract_plugin_skips_decode demoStorage demoEnv demoEnv [] [1] pluginParams demoWorld
      "custom" [] rfl).2.2 rfl⟩

/-- C2: for every Build b, `Create` returns an async handle and no synchronous failure. There is
a Build d, equal to b with defaults applied, such that the body, resolved in any world, makes
exactly one call, `CreateBuild` with d, and resolves to d when the registry succeeds. In d the
id is the generated identifier if the id of b is empty and the id of b otherwise, the status is
`New` if the status of b is empty and the status of b otherwise, the creation timestamp is the
formatted current time if that of b is empty and that of b otherwise, and the config is that of
b. Hence, when the generator and the formatter return non-empty strings and b has an empty id
and an empty status, d has a non-empty id, the status `New` and a non-empty creation
timestamp. -/
theorem create_applies_defaults {σ : Type} (storage : BuildRegistryStorage σ) (env : Env σ)
    (b : Build) (w : World σ) :
    ∃ (h : Async σ) (w1 : World σ) (d : Build),
      storage.Create env (Value.build b) w = ((some h, none), w1)
      ∧ d = withDefaults b (freshID env w.st) (currentTime env b w.st)
      ∧ (∀ w2 : World σ,
          (h.resolve w2).2 = { st := (storage.registry.CreateBuild d w2.st).2,
                               trace := w2.trace ++ [Call.CreateBuild d] }
          ∧ ((storage.registry.CreateBuild d w2.st).1 = none →
              (h.resolve w2).1 = (Value.build d, none)))
      ∧ (b.ID = "" → d.ID = freshID env w.st) ∧ (b.ID ≠ "" → d.ID = b.ID)
      ∧ (b.Status = "" → d.Status = BuildNew) ∧ (b.Status ≠ "" → d.Status = b.Status)
      ∧ (b.CreationTimestamp = "" → d.CreationTimestamp = currentTime env b w.st)
      ∧ (b.CreationTimestamp ≠ "" → d.CreationTimestamp = b.CreationTimestamp)
      ∧ d.Config = b.Config
      ∧ ((∀ s : σ, (env.NewUUID s).1 ≠ "") → (∀ s : σ, (env.Now s).1 ≠ "") →
          b.ID = "" → b.Status = "" →
          d.ID ≠ "" ∧ d.Status = BuildNew ∧ d.CreationTimestamp ≠ "") := by
  refine ⟨MakeAsync (createWork storage (createDefaults env b w).1), (createDefaults env b w).2,
    withDefaults b (freshID env w.st) (currentTime env b w.st), ?_, rfl, ?_, ?_, ?_, ?_, ?_, ?_,
    ?_, ?_, ?_⟩
  · simp [BuildRegistryStorage.Create]
  · intro w2
    rw [createDefaults_fst]
    exact ⟨(createWork_resolve storage _ w2).1, (createWork_resolve storage _ w2).2.1⟩
  · intro h; simp [withDefaults, h]
  · intro h; simp [withDefaults, h]
  · intro h; simp [withDefaults, h]
  · intro h; simp [withDefaults, h]
  · intro h; simp [withDefaults, h]
  · intro h; simp [withDefaults, h]
  · rfl
  · intro hgen hnow hid hst
    refine ⟨?_, ?_, ?_⟩
    · simpa [withDefaults, hid, freshID] using hgen w.st
    · simp [withDefaults, hst]
    · by_cases ht : b.CreationTimestamp = ""
      · simpa [withDefaults, ht, currentTime] using hnow _
      · simp [withDefaults, ht]

/-- Witness of C2: the scenario `Create(Build{id:"", status:""})` of the spec on the in-memory
registry. The body hands the defaulted build to `CreateBuild` and resolves to it. -/
theorem create_applies_defaults_witness :
    ∃ (h : Async (List Build)) (w1 : World (List Build)),
      demoStorage.Create demoEnv (Value.build freshBuild) demoWorld = ((some h, none), w1)
      ∧ h.resolve w1
        = ((Value.build createdBuild, none),
           { st := [build1, createdBuild],
             trace := [Call.NewUUID, Call.Now, Call.CreateBuild createdBuild] })
      ∧ createdBuild.ID ≠ "" ∧ createdBuild.Status = BuildNew
      ∧ createdBuild.CreationTimestamp ≠ "" := by
  obtain ⟨h, w1, d, hc, hd, _⟩ := create_applies_defaults demoStorage demoEnv freshBuild demoWorld
  refine ⟨h, w1, hc, ?_, by decide, by decide, by decide⟩
  have hc2 : demoStorage.Create demoEnv (Value.build freshBuild) demoWorld
      = ((some (MakeAsync (createWork demoStorage (createDefaults demoEnv freshBuild demoWorld).1)),
          none), (createDefaults demoEnv freshBuild demoWorld).2) := rfl
  rw [hc2] at hc
  simp only [Prod.mk.injEq, Option.some.injEq, and_true] at hc
  rw [← hc.1, ← hc.2]
  decide

/-- C7, counterexample: `Create` is given a Build whose status is a non-empty string outside
the status enumeration; the registry succeeds, and the resolved Build still has that status. -/
theorem create_keeps_unknown_status :
    ∃ (h : Async (List Build)) (w1 : World (List Build)) (r : Build),
      demoStorage.Create demoEnv (Value.build oddBuild) demoWorld = ((some h, none), w1)
      ∧ h.resolve w1 = ((Value.build r, none),
          { st := [build1, r], trace := [Call.Now, Call.CreateBuild r] })
      ∧ r.Status = "bogus" ∧ r.Status ∉ knownStatuses :=
  ⟨MakeAsync (createWork demoStorage (createDefaults demoEnv oddBuild demoWorld).1),
   (createDefaults demoEnv oddBuild demoWorld).2,
   { ID := "b2", CreationTimestamp := "Tue Nov  4 12:00:00 UTC 2014", Status := "bogus" },
   rfl, by decide, rfl, by decide⟩

/-- C7, amended: for every Build b, `Create` returns an async handle whose body hands a Build d
to `CreateBuild` and resolves to d when the registry succeeds. The status of d is non-empty: it
is `New` when the status of b is empty, and otherwise the status of b, unchanged and unchecked.
So, for an enumeration that contains `New`, the status of d is a value of the enumeration
whenever the status of b is empty or is such a value. -/
theorem create_status_nonempty {σ : Type} (storage : BuildRegistryStorage σ) (env : Env σ)
    (b : Build) (w : World σ) (known : List BuildStatus) (hnew : BuildNew ∈ known) :
    ∃ (h : Async σ) (w1 : World σ) (d : Build),
      storage.Create env (Value.build b) w = ((some h, none), w1)
      ∧ (∀ w2 : World σ,
          (h.resolve w2).2.trace = w2.trace ++ [Call.CreateBuild d]
          ∧ ((storage.registry.CreateBuild d w2.st).1 = none →
              (h.resolve w2).1 = (Value.build d, none)))
      ∧ d.Status ≠ ""
      ∧ (b.Status = "" → d.Status = BuildNew) ∧ (b.Status ≠ "" → d.Status = b.Status)
      ∧ (b.Status = "" ∨ b.Status ∈ known → d.Status ∈ known) := by
  refine ⟨MakeAsync (createWork storage (createDefaults env b w).1), (createDefaults env b w).2,
    (createDefaults env b w).1, ?_, ?_, ?_, ?_, ?_, ?_⟩
  · simp [BuildRegistryStorage.Create]
  · intro w2
    refine ⟨?_, (createWork_resolve storage _ w2).2.1⟩
    rw [(createWork_resolve storage _ w2).1]
  · rw [createDefaults_fst]
    by_cases hs : b.Status = ""
    · simp [withDefaults, hs, BuildNew]
    · simp [withDefaults, hs]
  · intro hs; rw [createDefaults_fst]; simp [withDefaults, hs]
  · intro hs; rw [createDefaults_fst]; simp [withDefaults, hs]
  · intro hk
    rw [createDefaults_fst]
    by_cases hs : b.Status = ""
    · simpa [withDefaults, hs] using hnew
    · rcases hk with hk | hk
      · exact absurd hk hs
      · simpa [withDefaults, hs] using hk

/-- Witness of amended C7 on the Create scenario, with the status enumeration of the spec. -/
theorem create_status_nonempty_witness :
    BuildNew ∈ knownStatuses
    ∧ ∃ (h : Async (List Build)) (w1 : World (List Build)) (d : Build),
      demoStorage.Create demoEnv (Value.build freshBuild) demoWorld = ((some h, none), w1)
      ∧ (∀ w2 : World (List Build),
          (h.resolve w2).2.trace = w2.trace ++ [Call.CreateBuild d]
          ∧ ((demoStorage.registry.CreateBuild d w2.st).1 = none →
              (h.resolve w2).1 = (Value.build d, none)))
      ∧ d.Status ≠ ""
      ∧ (freshBuild.Status = "" → d.Status = BuildNew)
      ∧ (freshBuild.Status ≠ "" → d.Status = freshBuild.Status)
      ∧ (freshBuild.Status = "" ∨ freshBuild.Status ∈ knownStatuses →
          d.Status ∈ knownStatuses) :=
  ⟨by decide,
   create_status_nonempty demoStorage demoEnv freshBuild demoWorld knownStatuses (by decide)⟩

end BuildStorage
